import Mathlib

/-!
Shallow embedding of the `APIwrapper` paginated API client from
`2-Visualising_the_Data.ipynb` (class `APIwrapper`, methods `__init__`,
`get_page`, `get_all_pages`).

Modelling conventions:
  * Python `time.time()` / `time.sleep()` real-valued times are modelled as
    rationals (`ℚ`); the float literal `0.33` of the source becomes `33/100`.
  * The HTTP transport (`requests.get(url, params=...).json()`) is a
    parameter: a function from URL and query parameters to either a decoded
    JSON envelope or a transport failure.
  * The decoded envelope is a record of four *optional* fields; `none` for a
    field means the key is absent from the JSON object, so that subscripting
    it raises `KeyError` (Python dict access).
  * Filter values are `Option String` (`none` is Python `None`).
  * Python dict equality (`filters != self._filters`) is key-set plus
    per-key-value equality, insensitive to insertion order.
  * The instance attribute `_next_url` is not assigned by `__init__`; its
    slot is modelled as `Option (Option String)`: `none` means "attribute
    never assigned" (reading it raises `AttributeError`), `some none` is
    Python `None` (exhausted), `some (some u)` is a next-page URL.
  * `get_page` is a pure state transformer; it also returns the list of HTTP
    requests it issued and the list of sleeps it performed, and threads the
    class-level `_last_access` timestamp explicitly.
-/

/-- A filter value: Python `None` or a string. -/
abbrev FVal := Option String

/-- A Python dict of filters, as an association list (keys unique in
well-formed inputs, as in Python). -/
abbrev Filters := List (String × FVal)

/-- A query-parameter value: string (from a filter) or integer
(`page_size`). -/
inductive PVal where
  | s (v : String)
  | i (n : Int)
deriving DecidableEq, Repr

/-- The query-parameter dict passed to `requests.get`. -/
abbrev Params := List (String × PVal)

/-- Decoded JSON envelope of one response. A `none` field models a missing
key in the JSON object. `next`/`previous` values are `Option String`
(`none` = JSON `null`). -/
structure Envelope (α : Type) where
  next : Option (Option String)
  count : Option Int
  previous : Option (Option String)
  results : Option (List α)
deriving DecidableEq, Repr

/-- Result of one transport call: a decoded envelope, or a network
failure (a `requests` exception). -/
inductive TResp (α : Type) where
  | ok (e : Envelope α)
  | fail
deriving DecidableEq, Repr

/-- The HTTP transport collaborator: `GET(url, params)` returning decoded
JSON or failing. -/
abbrev Transport (α : Type) := String → Params → TResp α

/-- Python exceptions that `get_page` can raise. -/
inductive PyError where
  | valueError (msg : String)
  | attributeError (name : String)
  | keyError (key : String)
  | transportError
deriving DecidableEq, Repr

/-- Instance state of an `APIwrapper` object. Python names carry a leading
underscore (`_start_url`, `_filters`, `_page_size`, `_next_url`); `count`
is the public attribute. `next_url = none` models the attribute slot never
having been assigned. -/
structure ClientState where
  start_url : String
  filters : Option Filters
  page_size : Int
  count : Option Int
  next_url : Option (Option String)
deriving DecidableEq, Repr

/-- The class attribute `APIwrapper._access_point`. -/
def accessPoint : String := "https://api.ukhsa-dashboard.data.gov.uk"

/-- `APIwrapper.__init__`: builds the endpoint URL from the six structure
parameters and initialises `_filters=None`, `_page_size=-1`, `count=None`.
It does not assign `_next_url`. -/
def APIwrapper.init (theme sub_theme topic geography_type geography metric : String) :
    ClientState :=
  { start_url := accessPoint ++ "/themes/" ++ theme ++ "/sub_themes/" ++ sub_theme ++
      "/topics/" ++ topic ++ "/geography_types/" ++ geography_type ++
      "/geographies/" ++ geography ++ "/metrics/" ++ metric
    filters := none
    page_size := -1
    count := none
    next_url := none }

/-- Python dict lookup `d[k]` (first binding wins; dicts have unique keys). -/
def dictLookup (d : Filters) (k : String) : Option FVal :=
  (d.find? (fun kv => kv.1 == k)).map (fun kv => kv.2)

/-- Python dict equality on filter dicts: same keys, equal value at every
key (insertion order irrelevant). -/
def dictEqF (a b : Filters) : Bool :=
  a.all (fun kv => dictLookup b kv.1 == some kv.2) &&
  b.all (fun kv => dictLookup a kv.1 == some kv.2)

/-- Python `filters != self._filters` where either side may be `None`. -/
def filtersNe (arg stored : Option Filters) : Bool :=
  match arg, stored with
  | none, none => false
  | some a, some b => !(dictEqF a b)
  | _, _ => true

/-- Python dict assignment `d[k] = v`: replace the (unique) binding of `k`
in place if present, else append at the end (dict insertion order). -/
def dictSetP : Params → String → PVal → Params
  | [], k, v => [(k, v)]
  | kv :: rest, k, v => if kv.1 == k then (k, v) :: rest else kv :: dictSetP rest k v

/-- Lookup in a parameter dict. -/
def pvLookup (p : Params) (k : String) : Option PVal :=
  (p.find? (fun kv => kv.1 == k)).map (fun kv => kv.2)

/-- `parameters={x: y for x, y in filters.items() if y!=None}` followed by
`parameters['page_size']=page_size`. -/
def buildParams (filters : Filters) (page_size : Int) : Params :=
  dictSetP (filters.filterMap (fun kv => kv.2.map (fun v => (kv.1, PVal.s v))))
    "page_size" (PVal.i page_size)

deriving instance DecidableEq for Except

/-- Everything one `get_page` call produces: the returned value (or the
exception raised), the instance state afterwards, the class-level
`_last_access` afterwards, the HTTP requests issued (URL and query
parameters) and the sleeps performed (durations). -/
structure PageResult (α : Type) where
  ret : Except PyError (List α)
  client : ClientState
  last_access : ℚ
  requests : List (String × Params)
  sleeps : List ℚ
deriving DecidableEq, Repr

/-- The rate-limiting block of `get_page`:
`deltat=curr_time-APIwrapper._last_access; if deltat<0.33: time.sleep(0.33-deltat)`.
Returns the list of sleeps performed (empty or a singleton). -/
def rateSleeps (last curr : ℚ) : List ℚ :=
  if curr - last < 33/100 then [33/100 - (curr - last)] else []

/-- `APIwrapper.get_page(self, filters, page_size)`. `last` is the
class-level `_last_access` on entry, `curr` the value `time.time()` returns
for this call; `filters = none` models passing Python `None` explicitly
(the default argument is `some []`, i.e. `{}`). Mirrors the source line by
line: page-size check; restart-from-page-1 when filters or page size
changed; end-of-data short circuit; rate limiting; parameter dict; request;
envelope decoding with state updates between field accesses. -/
def get_page {α : Type} (t : Transport α) (st : ClientState) (last curr : ℚ)
    (filters : Option Filters) (page_size : Int) : PageResult α :=
  if page_size > 365 then
    { ret := .error (.valueError "Max supported page size is 365"), client := st,
      last_access := last, requests := [], sleeps := [] }
  else
    let st1 := if filtersNe filters st.filters || (page_size != st.page_size) then
      { st with filters := filters, page_size := page_size,
                next_url := some (some st.start_url) }
    else st
    match st1.next_url with
    | none =>
      { ret := .error (.attributeError "_next_url"), client := st1,
        last_access := last, requests := [], sleeps := [] }
    | some none =>
      { ret := .ok [], client := st1, last_access := last, requests := [], sleeps := [] }
    | some (some url) =>
      let sleeps := rateSleeps last curr
      match filters with
      | none =>
        { ret := .error (.attributeError "items"), client := st1,
          last_access := curr, requests := [], sleeps := sleeps }
      | some fl =>
        let params := buildParams fl page_size
        match t url params with
        | .fail =>
          { ret := .error .transportError, client := st1, last_access := curr,
            requests := [(url, params)], sleeps := sleeps }
        | .ok env =>
          match env.next with
          | none =>
            { ret := .error (.keyError "next"), client := st1, last_access := curr,
              requests := [(url, params)], sleeps := sleeps }
          | some nxt =>
            match env.count with
            | none =>
              { ret := .error (.keyError "count"),
                client := { st1 with next_url := some nxt }, last_access := curr,
                requests := [(url, params)], sleeps := sleeps }
            | some cnt =>
              match env.results with
              | none =>
                { ret := .error (.keyError "results"),
                  client := { st1 with next_url := some nxt, count := some cnt },
                  last_access := curr, requests := [(url, params)], sleeps := sleeps }
              | some res =>
                { ret := .ok res,
                  client := { st1 with next_url := some nxt, count := some cnt },
                  last_access := curr, requests := [(url, params)], sleeps := sleeps }

/-- The `while True` loop of `get_all_pages`, with explicit fuel (`none`
means the fuel ran out with the loop still running, i.e. the loop had not
terminated after `fuel` iterations). `clock` gives the `time.time()` value
of the `k`-th `get_page` call overall; the accumulator is `data`. On
success returns the accumulated data, the final client state, the final
`_last_access` and the total number of `get_page` calls made. -/
def get_all_pages_aux {α : Type} (t : Transport α) (clock : Nat → ℚ)
    (filters : Option Filters) (page_size : Int) :
    Nat → Nat → ClientState → ℚ → List α →
    Option (Except PyError (List α) × ClientState × ℚ × Nat)
  | 0, _, _, _, _ => none
  | fuel+1, k, st, last, acc =>
    let r := get_page t st last (clock k) filters page_size
    match r.ret with
    | .error e => some (.error e, r.client, r.last_access, k + 1)
    | .ok page =>
      if page.isEmpty then some (.ok acc, r.client, r.last_access, k + 1)
      else get_all_pages_aux t clock filters page_size fuel (k + 1) r.client
        r.last_access (acc ++ page)

/-- `APIwrapper.get_all_pages(self, filters, page_size)`: loop `get_page`
until it returns an empty page, concatenating the pages. -/
def get_all_pages {α : Type} (t : Transport α) (clock : Nat → ℚ) (fuel : Nat)
    (st : ClientState) (last : ℚ) (filters : Option Filters) (page_size : Int) :
    Option (Except PyError (List α) × ClientState × ℚ × Nat) :=
  get_all_pages_aux t clock filters page_size fuel 0 st last []

example :
    (get_page (α := Nat) (fun _ _ => .ok ⟨some none, some 1, some none, some [7]⟩)
      (APIwrapper.init "a" "b" "c" "d" "e" "f") 0 1 (some []) 5).ret = .ok [7] := by
  decide

example :
    (get_page (α := Nat) (fun _ _ => .fail)
      (APIwrapper.init "a" "b" "c" "d" "e" "f") 0 1 none 5).ret =
      .error (.attributeError "items") := by
  decide

example :
    (get_page (α := Nat) (fun _ _ => .fail)
      (APIwrapper.init "a" "b" "c" "d" "e" "f") 0 1 none (-1)).ret =
      .error (.attributeError "_next_url") := by
  decide

/-- A `get_page` call on a state whose stored filters/page size match the
arguments and whose cursor holds a URL `u`, against a transport whose
response at `u` decodes with all of `next`, `count`, `results` present:
full characterisation of the call. -/
theorem get_page_ready {α : Type} (t : Transport α) (su : String) (oc : Option Int)
    (fl : Filters) (ps : Int) (u : String) (env : Envelope α)
    (nxt : Option String) (cnt : Int) (res : List α) (last curr : ℚ)
    (hps : ¬ ps > 365) (hfl : dictEqF fl fl = true)
    (ht : t u (buildParams fl ps) = .ok env)
    (hnx : env.next = some nxt) (hc : env.count = some cnt) (hr : env.results = some res) :
    get_page t ⟨su, some fl, ps, oc, some (some u)⟩ last curr (some fl) ps =
      { ret := .ok res,
        client := ⟨su, some fl, ps, some cnt, some nxt⟩,
        last_access := curr,
        requests := [(u, buildParams fl ps)],
        sleeps := rateSleeps last curr } := by
  obtain ⟨en, ec, ep, er⟩ := env
  simp only [Envelope.next] at hnx
  simp only [Envelope.count] at hc
  simp only [Envelope.results] at hr
  subst hnx; subst hc; subst hr
  simp [get_page, hps, filtersNe, hfl, ht]

/-- A `get_page` call on a state whose stored filters/page size match the
arguments and whose cursor is exhausted (`_next_url` is `None`): returns
`[]` and changes nothing. -/
theorem get_page_exhausted {α : Type} (t : Transport α) (su : String) (oc : Option Int)
    (fl f2 : Filters) (ps : Int) (last curr : ℚ)
    (hps : ¬ ps > 365) (hfl : dictEqF f2 fl = true) :
    get_page t ⟨su, some fl, ps, oc, some none⟩ last curr (some f2) ps =
      { ret := .ok [], client := ⟨su, some fl, ps, oc, some none⟩,
        last_access := last, requests := [], sleeps := [] } := by
  simp [get_page, hps, filtersNe, hfl]

/-- When the argument filters or page size differ from the stored ones (the
restart branch fires), the call behaves exactly like a call on the state
whose cursor was put back to the base URL and whose stored parameters were
updated. -/
theorem get_page_reset_eq {α : Type} (t : Transport α) (st : ClientState)
    (fl : Filters) (ps : Int) (last curr : ℚ)
    (hps : ¬ ps > 365) (hfl : dictEqF fl fl = true)
    (hne : (filtersNe (some fl) st.filters || (ps != st.page_size)) = true) :
    get_page t st last curr (some fl) ps =
      get_page t ⟨st.start_url, some fl, ps, st.count, some (some st.start_url)⟩
        last curr (some fl) ps := by
  obtain ⟨su, sf, sp, sc, sn⟩ := st
  have h2 : (filtersNe (some fl) (some fl) || (ps != ps)) = false := by
    simp [filtersNe, hfl]
  simp only [ClientState.filters, ClientState.page_size, ClientState.start_url,
    ClientState.count] at hne ⊢
  simp [get_page, hps, hne, h2]

/-- Whatever the transport answers, a call that reaches the request stage
from a matching state with cursor at `u` issues exactly one request, at `u`
with the built parameters, performs the rate-limit sleeps, stores the
pre-sleep call time as the shared timestamp, and never raises
`ValueError`. -/
theorem get_page_fire_parts {α : Type} (t : Transport α) (su : String) (oc : Option Int)
    (fl : Filters) (ps : Int) (u : String) (last curr : ℚ)
    (hps : ¬ ps > 365) (hfl : dictEqF fl fl = true) :
    (get_page t ⟨su, some fl, ps, oc, some (some u)⟩ last curr (some fl) ps).requests
        = [(u, buildParams fl ps)]
    ∧ (get_page t ⟨su, some fl, ps, oc, some (some u)⟩ last curr (some fl) ps).sleeps
        = rateSleeps last curr
    ∧ (get_page t ⟨su, some fl, ps, oc, some (some u)⟩ last curr (some fl) ps).last_access
        = curr
    ∧ ∀ m, (get_page t ⟨su, some fl, ps, oc, some (some u)⟩ last curr (some fl) ps).ret
        ≠ .error (.valueError m) := by
  cases h : t u (buildParams fl ps) with
  | fail => simp [get_page, hps, filtersNe, hfl, h]
  | ok env =>
    obtain ⟨en, ec, ep, er⟩ := env
    cases en <;> cases ec <;> cases er <;> simp [get_page, hps, filtersNe, hfl, h]

/-- After `d[k] = v`, looking up `k` finds `(k, v)`. -/
theorem dictSetP_find (d : Params) (k : String) (v : PVal) :
    (dictSetP d k v).find? (fun kv => kv.1 == k) = some (k, v) := by
  induction d with
  | nil => simp [dictSetP, List.find?]
  | cons kv rest ih =>
    by_cases hk : (kv.1 == k) = true
    · simp [dictSetP, hk, List.find?]
    · simp [dictSetP, hk, List.find?, ih]

/-- The parameter dict built by `get_page` always carries
`page_size = page_size` verbatim. -/
theorem pvLookup_buildParams (fl : Filters) (ps : Int) :
    pvLookup (buildParams fl ps) "page_size" = some (.i ps) := by
  unfold pvLookup buildParams
  rw [dictSetP_find]
  rfl

/-- C5: for every `page_size` greater than `365`, `get_page` raises
`ValueError` ("Max supported page size is 365") before any HTTP request is
issued and before any client state (or the shared timestamp) is
modified. -/
theorem C5_page_size_validation {α : Type} (t : Transport α) (st : ClientState)
    (last curr : ℚ) (filters : Option Filters) (ps : Int) (hps : ps > 365) :
    get_page t st last curr filters ps =
      { ret := .error (.valueError "Max supported page size is 365"), client := st,
        last_access := last, requests := [], sleeps := [] } := by
  simp [get_page, hps]

theorem C5_page_size_validation_witness :
    (400 : Int) > 365 ∧
    get_page (α := Nat) (fun _ _ => .fail) (APIwrapper.init "a" "b" "c" "d" "e" "f") 0 0
        (some []) 400 =
      { ret := .error (.valueError "Max supported page size is 365"),
        client := APIwrapper.init "a" "b" "c" "d" "e" "f",
        last_access := 0, requests := [], sleeps := [] } :=
  ⟨by decide, C5_page_size_validation _ _ _ _ _ 400 (by decide)⟩

/-- C4: once the cursor is exhausted (`_next_url` is `None`), every call
with unchanged filters and page size returns the empty list immediately,
issues no HTTP request, sleeps not at all, and leaves the instance state
and the shared timestamp unchanged; hence repeated calls are idempotent. -/
theorem C4_exhausted_idempotent {α : Type} (t : Transport α) (su : String)
    (oc : Option Int) (fl f2 : Filters) (ps : Int) (last curr : ℚ)
    (hps : ps ≤ 365) (heq : dictEqF f2 fl = true) :
    get_page t ⟨su, some fl, ps, oc, some none⟩ last curr (some f2) ps =
      { ret := .ok [], client := ⟨su, some fl, ps, oc, some none⟩,
        last_access := last, requests := [], sleeps := [] } :=
  get_page_exhausted t su oc fl f2 ps last curr (by omega) heq

theorem C4_exhausted_idempotent_witness :
    (5 : Int) ≤ 365 ∧ dictEqF [("sex", some "m")] [("sex", some "m")] = true ∧
    get_page (α := Nat) (fun _ _ => .fail)
        ⟨"u", some [("sex", some "m")], 5, some 7, some none⟩ 0 1
        (some [("sex", some "m")]) 5 =
      { ret := .ok [], client := ⟨"u", some [("sex", some "m")], 5, some 7, some none⟩,
        last_access := 0, requests := [], sleeps := [] } :=
  ⟨by decide, by decide,
    C4_exhausted_idempotent _ _ _ _ _ _ _ _ (by decide) (by decide)⟩

/-- C2: if the second of two consecutive calls passes filters that differ
from the stored ones (by dict equality) or a different page size, the HTTP
request it issues targets the base resource URL with the freshly built
parameters, not the stored cursor: the cursor is reset before the request
is built. -/
theorem C2_param_change_resets {α : Type} (t : Transport α) (st : ClientState)
    (f1 f2 : Filters) (ps1 ps2 : Int) (last curr : ℚ)
    (hstf : st.filters = some f1) (hstp : st.page_size = ps1)
    (hps : ps2 ≤ 365)
    (hdiff : dictEqF f2 f1 = false ∨ ps2 ≠ ps1)
    (hfl : dictEqF f2 f2 = true) :
    (get_page t st last curr (some f2) ps2).requests
      = [(st.start_url, buildParams f2 ps2)] := by
  have hne : (filtersNe (some f2) st.filters || (ps2 != st.page_size)) = true := by
    rw [hstf, hstp]
    rcases hdiff with h | h <;> simp [filtersNe, h]
  rw [get_page_reset_eq t st f2 ps2 last curr (by omega) hfl hne]
  exact (get_page_fire_parts t st.start_url st.count f2 ps2 st.start_url last curr
    (by omega) hfl).1

theorem C2_param_change_resets_witness :
    (get_page (α := Nat) (fun _ _ => .fail)
        ⟨"base", some [("year", some "2022")], 5, some 7, some (some "cursor")⟩ 0 1
        (some []) 3).requests = [("base", buildParams [] 3)] :=
  C2_param_change_resets _ _ [("year", some "2022")] [] 5 3 _ _ rfl rfl (by decide)
    (Or.inr (by decide)) (by decide)

/-- C10: `get_page` validates only the upper bound of `page_size`: any
integer `page_size ≤ 365` (zero and negative included) raises no
`ValueError`; on a fresh instance the single request issued carries the
value verbatim as the `page_size` query parameter. -/
theorem C10_no_lower_bound {α : Type} (t : Transport α)
    (a b c d e f : String) (fl : Filters) (ps : Int) (last curr : ℚ)
    (hps : ps ≤ 365) (hfl : dictEqF fl fl = true) :
    (∀ m, (get_page t (APIwrapper.init a b c d e f) last curr (some fl) ps).ret
        ≠ .error (.valueError m))
    ∧ (get_page t (APIwrapper.init a b c d e f) last curr (some fl) ps).requests
        = [((APIwrapper.init a b c d e f).start_url, buildParams fl ps)]
    ∧ pvLookup (buildParams fl ps) "page_size" = some (.i ps) := by
  have hne : (filtersNe (some fl) (APIwrapper.init a b c d e f).filters
      || (ps != (APIwrapper.init a b c d e f).page_size)) = true := by
    simp [APIwrapper.init, filtersNe]
  rw [get_page_reset_eq t _ fl ps last curr (by omega) hfl hne]
  obtain ⟨h1, h2, h3, h4⟩ := get_page_fire_parts t
    (APIwrapper.init a b c d e f).start_url (APIwrapper.init a b c d e f).count
    fl ps (APIwrapper.init a b c d e f).start_url last curr (by omega) hfl
  exact ⟨h4, h1, pvLookup_buildParams fl ps⟩

theorem C10_no_lower_bound_witness :
    ((-5 : Int) ≤ 365)
    ∧ (get_page (α := Nat) (fun _ _ => .fail) (APIwrapper.init "a" "b" "c" "d" "e" "f")
        0 1 (some []) (-5)).requests
        = [((APIwrapper.init "a" "b" "c" "d" "e" "f").start_url, buildParams [] (-5))]
    ∧ pvLookup (buildParams [] (-5)) "page_size" = some (.i (-5)) :=
  ⟨by decide,
    (C10_no_lower_bound (fun _ _ => .fail) "a" "b" "c" "d" "e" "f" [] (-5) 0 1
      (by decide) (by decide)).2.1,
    (C10_no_lower_bound (α := Nat) (fun _ _ => .fail) "a" "b" "c" "d" "e" "f" [] (-5) 0 1
      (by decide) (by decide)).2.2⟩

/-- Splits a list into consecutive pages of `p` items each (the last page
may be shorter). Fuel-bounded recursion; any fuel at least the list length
gives the full chunking. -/
def chunkAux {α : Type} : Nat → Nat → List α → List (List α)
  | 0, _, _ => []
  | _+1, _, [] => []
  | fuel+1, p, x :: xs => ((x :: xs).take p) :: chunkAux fuel p ((x :: xs).drop p)

/-- The pages a server delivers for `l` at page size `p`:
`ceil(l.length / p)` consecutive slices of `l`. -/
def chunkList {α : Type} (p : Nat) (l : List α) : List (List α) :=
  if p = 0 then [] else chunkAux l.length p l

theorem chunkAux_flatten {α : Type} (p : Nat) (hp : p ≠ 0) :
    ∀ (fuel : Nat) (l : List α), l.length ≤ fuel → (chunkAux fuel p l).flatten = l := by
  intro fuel
  induction fuel with
  | zero =>
    intro l hl
    have : l = [] := List.length_eq_zero.mp (by omega)
    subst this
    simp [chunkAux]
  | succ f ih =>
    intro l hl
    cases l with
    | nil => simp [chunkAux]
    | cons x xs =>
      have hdrop : ((x :: xs).drop p).length ≤ f := by
        simp only [List.length_drop, List.length_cons]
        simp only [List.length_cons] at hl
        omega
      simp only [chunkAux, List.flatten_cons, ih _ hdrop]
      exact List.take_append_drop p (x :: xs)

/-- Chunking at a positive page size reassembles to the original list. -/
theorem chunkList_flatten {α : Type} (p : Nat) (hp : p ≠ 0) (l : List α) :
    (chunkList p l).flatten = l := by
  unfold chunkList
  rw [if_neg hp]
  exact chunkAux_flatten p hp l.length l le_rfl

theorem chunkAux_ne_nil {α : Type} (p : Nat) (hp : p ≠ 0) :
    ∀ (fuel : Nat) (l : List α), ∀ c ∈ chunkAux fuel p l, c ≠ [] := by
  intro fuel
  induction fuel with
  | zero => intro l c hc; simp [chunkAux] at hc
  | succ f ih =>
    intro l c hc
    cases l with
    | nil => simp [chunkAux] at hc
    | cons x xs =>
      simp only [chunkAux, List.mem_cons] at hc
      rcases hc with hc | hc
      · subst hc
        obtain ⟨q, rfl⟩ : ∃ q, p = q + 1 := ⟨p - 1, by omega⟩
        simp [List.take]
      · exact ih _ c hc

/-- Every page of a chunking at positive page size is non-empty. -/
theorem chunkList_ne_nil {α : Type} (p : Nat) (hp : p ≠ 0) (l : List α) :
    ∀ c ∈ chunkList p l, c ≠ [] := by
  unfold chunkList
  rw [if_neg hp]
  exact chunkAux_ne_nil p hp l.length l

/-- A non-empty list has at least one page. -/
theorem chunkList_nonempty {α : Type} (p : Nat) (hp : p ≠ 0) (l : List α)
    (hl : l ≠ []) : chunkList p l ≠ [] := by
  unfold chunkList
  rw [if_neg hp]
  cases l with
  | nil => exact absurd rfl hl
  | cons x xs => simp [chunkAux]

/-- A well-formed envelope as the mock server delivers it: `next`, `count`,
`previous`, `results` all present, `previous` null. -/
def mkEnv {α : Type} (nxt : Option String) (cnt : Int) (res : List α) : Envelope α :=
  { next := some nxt, count := some cnt, previous := some none, results := some res }

/-- The transport serves the page list `pgs` as a chain starting at URL
`u`: each page's envelope carries the next page's URL (the last page's
`next` is null) and the total count `cnt`, when queried with `params`. -/
def ServChain {α : Type} (t : Transport α) (params : Params) (cnt : Int) :
    String → List (List α) → Prop
  | _, [] => True
  | u, [pg] => t u params = .ok (mkEnv none cnt pg)
  | u, pg :: pg2 :: rest =>
      ∃ u2, t u params = .ok (mkEnv (some u2) cnt pg) ∧
        ServChain t params cnt u2 (pg2 :: rest)

/-- One loop iteration of `get_all_pages` on an exhausted cursor ends the
loop at once, returning the accumulator. -/
theorem aux_exhausted {α : Type} (t : Transport α) (clock : Nat → ℚ) (fl : Filters)
    (ps : Int) (su : String) (oc : Option Int) (fuel k : Nat) (last : ℚ) (acc : List α)
    (hps : ¬ ps > 365) (hfl : dictEqF fl fl = true) (hfuel : 1 ≤ fuel) :
    get_all_pages_aux t clock (some fl) ps fuel k ⟨su, some fl, ps, oc, some none⟩
        last acc =
      some (.ok acc, ⟨su, some fl, ps, oc, some none⟩, last, k + 1) := by
  obtain ⟨f, rfl⟩ : ∃ f, fuel = f + 1 := ⟨fuel - 1, by omega⟩
  rw [get_all_pages_aux]
  rw [get_page_exhausted t su oc fl fl ps last (clock k) hps hfl]
  simp

/-- The `get_all_pages` loop, started on a state whose stored parameters
match the arguments and whose cursor points at the head of a served chain
of non-empty pages, consumes the whole chain: it returns the accumulator
followed by all pages in order, leaves the cursor exhausted and the count
at the served total, and makes one `get_page` call per page plus one final
empty call. -/
theorem aux_chain {α : Type} (t : Transport α) (clock : Nat → ℚ) (fl : Filters)
    (ps : Int) (cnt : Int) (hps : ¬ ps > 365) (hfl : dictEqF fl fl = true) :
    ∀ (pgs : List (List α)) (u su : String) (oc : Option Int)
      (last : ℚ) (k : Nat) (acc : List α) (fuel : Nat),
      ServChain t (buildParams fl ps) cnt u pgs →
      (∀ pg ∈ pgs, pg ≠ []) → pgs ≠ [] →
      pgs.length + 1 ≤ fuel →
      ∃ la2 kf, get_all_pages_aux t clock (some fl) ps fuel k
          ⟨su, some fl, ps, oc, some (some u)⟩ last acc =
        some (.ok (acc ++ pgs.flatten), ⟨su, some fl, ps, some cnt, some none⟩,
          la2, kf) := by
  intro pgs
  induction pgs with
  | nil => intro u su oc last k acc fuel _ _ hne; exact absurd rfl hne
  | cons pg rest ih =>
    intro u su oc last k acc fuel hchain hmem hne hfuel
    obtain ⟨f, rfl⟩ : ∃ f, fuel = f + 1 := ⟨fuel - 1, by omega⟩
    have hpg : pg ≠ [] := hmem pg (by simp)
    obtain ⟨y, ys, rfl⟩ : ∃ y ys, pg = y :: ys := by
      cases pg with
      | nil => exact absurd rfl hpg
      | cons y ys => exact ⟨y, ys, rfl⟩
    cases rest with
    | nil =>
      simp only [ServChain] at hchain
      have hgp := get_page_ready t su oc fl ps u (mkEnv none cnt (y :: ys)) none cnt
        (y :: ys) last (clock k) hps hfl hchain rfl rfl rfl
      rw [get_all_pages_aux]
      rw [hgp]
      simp only [List.isEmpty_cons, Bool.false_eq_true, if_false]
      refine ⟨clock k, k + 1 + 1, ?_⟩
      rw [aux_exhausted t clock fl ps su (some cnt) f (k + 1) (clock k)
        (acc ++ (y :: ys)) hps hfl (by simp only [List.length_cons] at hfuel; omega)]
      simp [List.flatten_cons, List.flatten_nil]
    | cons pg2 rest2 =>
      simp only [ServChain] at hchain
      obtain ⟨u2, htu, hchain2⟩ := hchain
      have hgp := get_page_ready t su oc fl ps u (mkEnv (some u2) cnt (y :: ys))
        (some u2) cnt (y :: ys) last (clock k) hps hfl htu rfl rfl rfl
      rw [get_all_pages_aux]
      rw [hgp]
      simp only [List.isEmpty_cons, Bool.false_eq_true, if_false]
      have hmem2 : ∀ p ∈ pg2 :: rest2, p ≠ [] := fun p hp => hmem p (by simp [hp])
      have hfuel2 : (pg2 :: rest2).length + 1 ≤ f := by
        simp only [List.length_cons] at hfuel ⊢
        omega
      obtain ⟨la2, kf, hrec⟩ := ih u2 su (some cnt) (clock k) (k + 1) (acc ++ (y :: ys)) f
        hchain2 hmem2 (by simp) hfuel2
      refine ⟨la2, kf, ?_⟩
      rw [hrec]
      simp [List.flatten_cons, List.append_assoc]

/-- Two starting states whose first `get_page` call agrees give the same
`get_all_pages` loop outcome (the rest of the loop only sees that call's
result). -/
theorem aux_congr_first {α : Type} (t : Transport α) (clock : Nat → ℚ)
    (fl : Option Filters) (ps : Int) (fuel k : Nat) (st st2 : ClientState)
    (last : ℚ) (acc : List α)
    (h : get_page t st last (clock k) fl ps = get_page t st2 last (clock k) fl ps) :
    get_all_pages_aux t clock fl ps fuel k st last acc =
      get_all_pages_aux t clock fl ps fuel k st2 last acc := by
  cases fuel with
  | zero => rfl
  | succ f => rw [get_all_pages_aux, get_all_pages_aux, h]

/-- C1: against any transport that serves the items of `items` over
`ceil(items.length / page_size)` pages (each envelope carrying the total
count `items.length`, the last page's next URL null), a `get_all_pages`
call on a fresh client succeeds, returns exactly the concatenation of all
pages' results lists in served order (= `items`), and the count recorded
from the final request equals the length of the returned sequence. -/
theorem C1_fetch_all {α : Type} (t : Transport α) (clock : Nat → ℚ)
    (a b c d e f : String) (fl : Filters) (ps : Int) (items : List α)
    (fuel : Nat) (last : ℚ)
    (hp0 : 0 < ps) (hps : ps ≤ 365) (hfl : dictEqF fl fl = true)
    (hitems : items ≠ [])
    (hchain : ServChain t (buildParams fl ps) (items.length)
        (APIwrapper.init a b c d e f).start_url (chunkList ps.toNat items))
    (hfuel : (chunkList ps.toNat items).length + 1 ≤ fuel) :
    ∃ la2 kf,
      get_all_pages t clock fuel (APIwrapper.init a b c d e f) last (some fl) ps =
        some (.ok items,
          ⟨(APIwrapper.init a b c d e f).start_url, some fl, ps,
            some (items.length : Int), some none⟩, la2, kf) := by
  have hpnat : ps.toNat ≠ 0 := by omega
  have hne : (filtersNe (some fl) (APIwrapper.init a b c d e f).filters
      || (ps != (APIwrapper.init a b c d e f).page_size)) = true := by
    simp [APIwrapper.init, filtersNe]
  unfold get_all_pages
  rw [aux_congr_first t clock (some fl) ps fuel 0 (APIwrapper.init a b c d e f)
    ⟨(APIwrapper.init a b c d e f).start_url, some fl, ps,
      (APIwrapper.init a b c d e f).count,
      some (some (APIwrapper.init a b c d e f).start_url)⟩ last []
    (get_page_reset_eq t _ fl ps last (clock 0) (by omega) hfl hne)]
  obtain ⟨la2, kf, hres⟩ := aux_chain t clock fl ps (items.length : Int) (by omega) hfl
    (chunkList ps.toNat items) (APIwrapper.init a b c d e f).start_url
    (APIwrapper.init a b c d e f).start_url (APIwrapper.init a b c d e f).count
    last 0 [] fuel hchain (chunkList_ne_nil ps.toNat hpnat items)
    (chunkList_nonempty ps.toNat hpnat items hitems) hfuel
  refine ⟨la2, kf, ?_⟩
  rw [hres, chunkList_flatten ps.toNat hpnat items]
  simp

/-- A mock transport serving 7 items over 3 pages of size 3, rooted at the
base URL of the client built from segments "a".."f". -/
def pagedMockT : Transport Nat := fun u _ =>
  if u == (APIwrapper.init "a" "b" "c" "d" "e" "f").start_url then
    .ok (mkEnv (some "P2") 7 [0, 1, 2])
  else if u == "P2" then .ok (mkEnv (some "P3") 7 [3, 4, 5])
  else if u == "P3" then .ok (mkEnv none 7 [6])
  else .fail

theorem C1_fetch_all_witness :
    ∃ la2 kf,
      get_all_pages pagedMockT (fun _ => 0) 4 (APIwrapper.init "a" "b" "c" "d" "e" "f")
          0 (some []) 3 =
        some (.ok [0, 1, 2, 3, 4, 5, 6],
          ⟨(APIwrapper.init "a" "b" "c" "d" "e" "f").start_url, some [], 3,
            some 7, some none⟩, la2, kf) := by
  have hchain : ServChain pagedMockT (buildParams [] 3)
      (([0, 1, 2, 3, 4, 5, 6] : List Nat).length : Int)
      (APIwrapper.init "a" "b" "c" "d" "e" "f").start_url
      (chunkList (Int.toNat 3) [0, 1, 2, 3, 4, 5, 6]) := by
    rw [show chunkList (Int.toNat 3) ([0, 1, 2, 3, 4, 5, 6] : List Nat)
        = [[0, 1, 2], [3, 4, 5], [6]] from rfl]
    simp only [ServChain]
    refine ⟨"P2", ?_, "P3", ?_, ?_⟩ <;> decide
  exact C1_fetch_all pagedMockT (fun _ => 0) "a" "b" "c" "d" "e" "f" [] 3
    [0, 1, 2, 3, 4, 5, 6] 4 0 (by decide) (by decide) (by decide) (by decide)
    hchain (by decide)

/-- If every envelope the transport returns carries a non-null next URL and
a non-empty results list, the `get_all_pages` loop never stops: whatever
the fuel, it is still running when the fuel runs out. -/
theorem aux_cycle {α : Type} (t : Transport α) (clock : Nat → ℚ) (fl : Filters)
    (ps : Int) (hps : ¬ ps > 365) (hfl : dictEqF fl fl = true)
    (ht : ∀ u p, ∃ u2 cnt prev res,
        t u p = .ok ⟨some (some u2), some cnt, prev, some res⟩ ∧ res ≠ []) :
    ∀ (fuel k : Nat) (su : String) (oc : Option Int) (u : String) (last : ℚ)
      (acc : List α),
      get_all_pages_aux t clock (some fl) ps fuel k
        ⟨su, some fl, ps, oc, some (some u)⟩ last acc = none := by
  intro fuel
  induction fuel with
  | zero => intros; rfl
  | succ f ih =>
    intro k su oc u last acc
    obtain ⟨u2, cnt, prev, res, htu, hres⟩ := ht u (buildParams fl ps)
    have hgp := get_page_ready t su oc fl ps u ⟨some (some u2), some cnt, prev, some res⟩
      (some u2) cnt res last (clock k) hps hfl htu rfl rfl rfl
    rw [get_all_pages_aux, hgp]
    obtain ⟨z, zs, rfl⟩ : ∃ z zs, res = z :: zs := by
      cases res with
      | nil => exact absurd rfl hres
      | cons z zs => exact ⟨z, zs, rfl⟩
    simp only [List.isEmpty_cons, Bool.false_eq_true, if_false]
    exact ih (k + 1) su (some cnt) u2 (clock k) (acc ++ (z :: zs))

/-- C8: for every transport whose response envelopes always carry a
non-null next URL and a non-empty results list, `get_all_pages` on a fresh
client never terminates: for every iteration budget the loop is still
running (there is no iteration cap and no seen-URL check). -/
theorem C8_nontermination {α : Type} (t : Transport α) (clock : Nat → ℚ)
    (a b c d e f : String) (fl : Filters) (ps : Int) (last : ℚ) (fuel : Nat)
    (hps : ps ≤ 365) (hfl : dictEqF fl fl = true)
    (ht : ∀ u p, ∃ u2 cnt prev res,
        t u p = .ok ⟨some (some u2), some cnt, prev, some res⟩ ∧ res ≠ []) :
    get_all_pages t clock fuel (APIwrapper.init a b c d e f) last (some fl) ps
      = none := by
  have hne : (filtersNe (some fl) (APIwrapper.init a b c d e f).filters
      || (ps != (APIwrapper.init a b c d e f).page_size)) = true := by
    simp [APIwrapper.init, filtersNe]
  unfold get_all_pages
  rw [aux_congr_first t clock (some fl) ps fuel 0 (APIwrapper.init a b c d e f)
    ⟨(APIwrapper.init a b c d e f).start_url, some fl, ps,
      (APIwrapper.init a b c d e f).count,
      some (some (APIwrapper.init a b c d e f).start_url)⟩ last []
    (get_page_reset_eq t _ fl ps last (clock 0) (by omega) hfl hne)]
  exact aux_cycle t clock fl ps (by omega) hfl ht fuel 0
    (APIwrapper.init a b c d e f).start_url (APIwrapper.init a b c d e f).count
    (APIwrapper.init a b c d e f).start_url last []

/-- A transport whose next-page pointer always points somewhere (a cycling
server) and whose pages are never empty. -/
def cycleMockT : Transport Nat := fun _ _ =>
  .ok ⟨some (some "loop"), some 1, some none, some [0]⟩

theorem C8_nontermination_witness :
    get_all_pages cycleMockT (fun _ => 0) 5 (APIwrapper.init "a" "b" "c" "d" "e" "f")
        0 (some []) 365 = none :=
  C8_nontermination cycleMockT (fun _ => 0) "a" "b" "c" "d" "e" "f" [] 365 0 5
    (by decide) (by decide)
    (fun u p => ⟨"loop", 1, some none, [0], rfl, by decide⟩)

/-- The envelope used by the C3/C6 example transports: a well-formed last
page holding the single item `0`. -/
def lastPageEnv : Envelope Nat :=
  { next := some none
    count := some 1
    previous := some none
    results := some [0] }

/-- A well-formed envelope missing only the `previous` key. -/
def noPrevEnv : Envelope Nat :=
  { next := some none
    count := some 1
    previous := none
    results := some [0] }

/-- An envelope missing the `next` key. -/
def noNextEnv : Envelope Nat :=
  { next := none
    count := some 1
    previous := some none
    results := some [0] }

/-- C3 counterexample: the source's threshold is `0.33`, not `1/3` second.
With the shared timestamp at `0` and the call arriving at `0.332` seconds
(elapsed `83/250 < 1/3`), the claim demands a sleep of exactly the deficit;
the code performs no sleep at all, yet fires the request. -/
theorem C3_rate_limit_counterexample :
    (83/250 : ℚ) < 1/3
    ∧ (get_page (fun _ _ => .ok lastPageEnv)
        ⟨"s", some [], 5, none, some (some "s")⟩ 0 (83/250) (some []) 5).sleeps = []
    ∧ (get_page (fun _ _ => .ok lastPageEnv)
        ⟨"s", some [], 5, none, some (some "s")⟩ 0 (83/250) (some []) 5).requests
        ≠ [] := by
  obtain ⟨h1, h2, h3, h4⟩ := get_page_fire_parts (fun _ _ => .ok lastPageEnv)
    "s" none [] 5 "s" 0 (83/250) (by norm_num) (by decide)
  refine ⟨by norm_num, ?_, ?_⟩
  · rw [h2, rateSleeps, if_neg (by norm_num)]
  · rw [h1]
    simp

/-- C3 amended: before issuing a request, `get_page` computes the elapsed
time since the shared class-level timestamp; if it is below `0.33` s it
sleeps exactly `0.33 − elapsed`, otherwise it does not sleep; it then
stores the pre-sleep call time (not the request's fire time) as the new
shared timestamp, so two requests can fire closer than `1/3` s apart. -/
theorem C3_rate_limit_amended {α : Type} (t : Transport α) (su : String)
    (oc : Option Int) (fl : Filters) (ps : Int) (u : String) (last curr : ℚ)
    (hps : ps ≤ 365) (hfl : dictEqF fl fl = true) :
    (curr - last < 33/100 →
      (get_page t ⟨su, some fl, ps, oc, some (some u)⟩ last curr (some fl) ps).sleeps
        = [33/100 - (curr - last)])
    ∧ (33/100 ≤ curr - last →
      (get_page t ⟨su, some fl, ps, oc, some (some u)⟩ last curr (some fl) ps).sleeps
        = [])
    ∧ (get_page t ⟨su, some fl, ps, oc, some (some u)⟩ last curr (some fl) ps).last_access
        = curr := by
  obtain ⟨h1, h2, h3, h4⟩ := get_page_fire_parts t su oc fl ps u last curr (by omega) hfl
  refine ⟨?_, ?_, h3⟩
  · intro hlt
    rw [h2, rateSleeps, if_pos hlt]
  · intro hge
    rw [h2, rateSleeps, if_neg (not_lt.mpr hge)]

theorem C3_rate_limit_amended_witness :
    ((1/10 : ℚ) - 0 < 33/100)
    ∧ (get_page (α := Nat) (fun _ _ => .fail) ⟨"s", some [], 5, none, some (some "s")⟩
        0 (1/10) (some []) 5).sleeps = [33/100 - ((1/10 : ℚ) - 0)] :=
  ⟨by norm_num,
    (C3_rate_limit_amended (fun _ _ => .fail) "s" none [] 5 "s" 0 (1/10)
      (by norm_num) (by decide)).1 (by norm_num)⟩

/-- `True` exactly on a raised `KeyError` (any key). -/
def isKeyErr {α : Type} : Except PyError (List α) → Bool
  | .error (.keyError _) => true
  | _ => false

/-- C6 counterexample: an envelope carrying `next`, `count` and `results`
but missing `previous` is processed successfully — the code never reads
`previous`, so its absence does not cause the claimed failure. -/
theorem C6_missing_previous_counterexample :
    (get_page (fun _ _ => .ok noPrevEnv)
        ⟨"s", some [], 5, none, some (some "s")⟩ 0 1 (some []) 5).ret = .ok [0] := by
  decide

/-- C6 amended: with a decoded envelope, `get_page` raises `KeyError` (the
spec's `ProtocolError`) exactly when `next`, `count` or `results` is
missing; the `previous` field is never accessed, so an envelope missing
only `previous` is processed successfully. -/
theorem C6_envelope_fields_amended {α : Type} (t : Transport α) (su : String)
    (oc : Option Int) (fl : Filters) (ps : Int) (u : String) (last curr : ℚ)
    (env : Envelope α)
    (hps : ps ≤ 365) (hfl : dictEqF fl fl = true)
    (ht : t u (buildParams fl ps) = .ok env) :
    isKeyErr (get_page t ⟨su, some fl, ps, oc, some (some u)⟩ last curr
        (some fl) ps).ret = true
      ↔ (env.next = none ∨ env.count = none ∨ env.results = none) := by
  have h365 : ¬ (365 : Int) < ps := by omega
  obtain ⟨en, ec, ep, er⟩ := env
  cases en <;> cases ec <;> cases er <;>
    simp [get_page, filtersNe, hfl, ht, isKeyErr, if_neg h365]

theorem C6_envelope_fields_amended_witness :
    isKeyErr (get_page (fun _ _ => .ok noNextEnv)
        ⟨"s", some [], 5, none, some (some "s")⟩ 0 1 (some []) 5).ret = true
      ↔ (noNextEnv.next = none ∨ noNextEnv.count = none ∨ noNextEnv.results = none) :=
  C6_envelope_fields_amended (fun _ _ => .ok noNextEnv)
    "s" none [] 5 "s" 0 1 noNextEnv (by decide) (by decide) rfl

/-- The query-parameter dict as the spec words it: exactly the non-null
filter entries followed by a `page_size` entry. Stated from the spec for
comparison with `buildParams`, which is read off the source. -/
def specQueryParams (fl : Filters) (ps : Int) : Params :=
  fl.filterMap (fun kv => kv.2.map (fun v => (kv.1, PVal.s v)))
    ++ [("page_size", PVal.i ps)]

/-- When `k` is not a key of `d`, Python dict assignment appends. -/
theorem dictSetP_not_mem (d : Params) (k : String) (v : PVal)
    (h : ∀ kv ∈ d, kv.1 ≠ k) : dictSetP d k v = d ++ [(k, v)] := by
  induction d with
  | nil => rfl
  | cons kv rest ih =>
    have hk : ¬ (kv.1 == k) = true := by
      simp only [beq_iff_eq]
      exact h kv (by simp)
    simp only [dictSetP, if_neg hk, List.cons_append]
    rw [ih (fun x hx => h x (by simp [hx]))]

/-- The parameter dict the source builds coincides with the spec's
"non-null filter entries plus page_size" whenever no filter is itself
named `page_size`. -/
theorem buildParams_eq_spec (fl : Filters) (ps : Int)
    (h : ∀ kv ∈ fl, kv.1 ≠ "page_size") :
    buildParams fl ps = specQueryParams fl ps := by
  unfold buildParams specQueryParams
  apply dictSetP_not_mem
  intro kv hkv
  simp only [List.mem_filterMap] at hkv
  obtain ⟨a, ha, hfa⟩ := hkv
  cases hval : a.2 with
  | none =>
    rw [hval] at hfa
    simp at hfa
  | some w =>
    rw [hval] at hfa
    injection hfa with h3
    rw [← h3]
    exact h a ha

/-- C7 counterexample: the constructor leaves the cursor attribute
unassigned; it is *not* initialised to the start state (the base URL). -/
theorem C7_cursor_unset_counterexample :
    (APIwrapper.init "a" "b" "c" "d" "e" "f").next_url = none
    ∧ (APIwrapper.init "a" "b" "c" "d" "e" "f").next_url
        ≠ some (some (APIwrapper.init "a" "b" "c" "d" "e" "f").start_url) :=
  ⟨rfl, by decide⟩

/-- C7 amended: construction is pure (no network call), stores exactly the
six-segment resource URL under the fixed access point, and initialises
`filters` to `None`, `page_size` to the `-1` sentinel and `count` to
`None`; the cursor attribute is left unassigned (it is first assigned by
the parameter-change branch of `get_page`). Each request issued from a
matching state sends exactly the non-null filter entries plus `page_size`
as query parameters (provided no filter is itself named `page_size`). -/
theorem C7_construction_amended :
    (∀ a b c d e f : String,
      APIwrapper.init a b c d e f =
        { start_url := accessPoint ++ "/themes/" ++ a ++ "/sub_themes/" ++ b ++
            "/topics/" ++ c ++ "/geography_types/" ++ d ++ "/geographies/" ++ e ++
            "/metrics/" ++ f
          filters := none
          page_size := -1
          count := none
          next_url := none })
    ∧ (∀ (fl : Filters) (ps : Int), (∀ kv ∈ fl, kv.1 ≠ "page_size") →
        buildParams fl ps = specQueryParams fl ps)
    ∧ (∀ (α : Type) (t : Transport α) (su u : String) (oc : Option Int) (fl : Filters)
        (ps : Int) (last curr : ℚ), ps ≤ 365 → dictEqF fl fl = true →
        (get_page t ⟨su, some fl, ps, oc, some (some u)⟩ last curr (some fl) ps).requests
          = [(u, buildParams fl ps)]) := by
  refine ⟨fun a b c d e f => rfl, buildParams_eq_spec, ?_⟩
  intro α t su u oc fl ps last curr hps hfl
  exact (get_page_fire_parts t su oc fl ps u last curr (by omega) hfl).1

theorem C7_construction_amended_witness :
    APIwrapper.init "infectious_disease" "respiratory" "COVID-19" "Nation" "England"
        "COVID-19_cases_casesByDay" =
      { start_url := accessPoint ++ "/themes/" ++ "infectious_disease" ++ "/sub_themes/"
          ++ "respiratory" ++ "/topics/" ++ "COVID-19" ++ "/geography_types/" ++ "Nation"
          ++ "/geographies/" ++ "England" ++ "/metrics/" ++ "COVID-19_cases_casesByDay"
        filters := none
        page_size := -1
        count := none
        next_url := none }
    ∧ buildParams [("sex", some "m"), ("age", none)] 5
        = specQueryParams [("sex", some "m"), ("age", none)] 5
    ∧ (get_page (α := Nat) (fun _ _ => .fail) ⟨"s", some [], 5, none, some (some "s")⟩
        0 1 (some []) 5).requests = [("s", buildParams [] 5)] :=
  ⟨C7_construction_amended.1 "infectious_disease" "respiratory" "COVID-19" "Nation"
      "England" "COVID-19_cases_casesByDay",
   C7_construction_amended.2.1 [("sex", some "m"), ("age", none)] 5 (by decide),
   C7_construction_amended.2.2 Nat (fun _ _ => .fail) "s" "s" none [] 5 0 1
      (by decide) (by decide)⟩

/-- C9 counterexample: a first call on a fresh instance with
`filters=None` and `page_size=5` (so `page_size` differs from the `-1`
sentinel, an input the claim covers) does not issue a base-URL request at
all: the parameter-change branch runs, but building the parameter dict
from `None` raises `AttributeError` before any request. -/
theorem C9_first_call_counterexample :
    (get_page (α := Nat) (fun _ _ => .fail) (APIwrapper.init "a" "b" "c" "d" "e" "f")
        0 1 none 5).ret = .error (.attributeError "items")
    ∧ (get_page (α := Nat) (fun _ _ => .fail) (APIwrapper.init "a" "b" "c" "d" "e" "f")
        0 1 none 5).requests = [] :=
  ⟨by decide, by decide⟩

/-- C9 amended: the constructor does not initialise the cursor attribute.
On a fresh instance: a first call whose filters argument is a mapping (and
`page_size ≤ 365`) has the parameter-change branch assign the cursor before
it is read, so its one request targets the base URL; a first call passing
`filters=None` and `page_size=-1` reads the never-assigned cursor and fails
with `AttributeError` before any request, leaving all state unchanged; a
first call passing `filters=None` with any other `page_size ≤ 365` resets
the cursor but fails with `AttributeError` while building the parameter
dict, likewise before any request. -/
theorem C9_cursor_amended (a b c d e f : String) :
    (APIwrapper.init a b c d e f).next_url = none
    ∧ (∀ (α : Type) (t : Transport α) (fl : Filters) (ps : Int) (last curr : ℚ),
        ps ≤ 365 → dictEqF fl fl = true →
        (get_page t (APIwrapper.init a b c d e f) last curr (some fl) ps).requests
          = [((APIwrapper.init a b c d e f).start_url, buildParams fl ps)])
    ∧ (∀ (α : Type) (t : Transport α) (last curr : ℚ),
        get_page t (APIwrapper.init a b c d e f) last curr none (-1) =
          { ret := .error (.attributeError "_next_url")
            client := APIwrapper.init a b c d e f
            last_access := last
            requests := []
            sleeps := [] })
    ∧ (∀ (α : Type) (t : Transport α) (ps : Int) (last curr : ℚ), ps ≤ 365 → ps ≠ -1 →
        (get_page t (APIwrapper.init a b c d e f) last curr none ps).ret
            = .error (.attributeError "items")
        ∧ (get_page t (APIwrapper.init a b c d e f) last curr none ps).requests = []) := by
  refine ⟨rfl, ?_, ?_, ?_⟩
  · intro α t fl ps last curr hps hfl
    have hne : (filtersNe (some fl) (APIwrapper.init a b c d e f).filters
        || (ps != (APIwrapper.init a b c d e f).page_size)) = true := by
      simp [APIwrapper.init, filtersNe]
    rw [get_page_reset_eq t _ fl ps last curr (by omega) hfl hne]
    exact (get_page_fire_parts t (APIwrapper.init a b c d e f).start_url
      (APIwrapper.init a b c d e f).count fl ps
      (APIwrapper.init a b c d e f).start_url last curr (by omega) hfl).1
  · intro α t last curr
    simp [get_page, filtersNe, APIwrapper.init]
  · intro α t ps last curr hps hn1
    have h1 : (ps != (-1 : Int)) = true := by
      rw [bne_iff_ne]
      exact hn1
    have h365 : ¬ ps > 365 := by omega
    refine ⟨?_, ?_⟩ <;> simp [get_page, filtersNe, APIwrapper.init, h1, if_neg h365]

theorem C9_cursor_amended_witness :
    (APIwrapper.init "a" "b" "c" "d" "e" "f").next_url = none
    ∧ (get_page (α := Nat) (fun _ _ => .fail) (APIwrapper.init "a" "b" "c" "d" "e" "f")
        0 1 (some []) 5).requests
        = [((APIwrapper.init "a" "b" "c" "d" "e" "f").start_url, buildParams [] 5)]
    ∧ get_page (α := Nat) (fun _ _ => .fail) (APIwrapper.init "a" "b" "c" "d" "e" "f")
        0 1 none (-1) =
        { ret := .error (.attributeError "_next_url")
          client := APIwrapper.init "a" "b" "c" "d" "e" "f"
          last_access := 0
          requests := []
          sleeps := [] }
    ∧ (get_page (α := Nat) (fun _ _ => .fail) (APIwrapper.init "a" "b" "c" "d" "e" "f")
        0 1 none 5).ret = .error (.attributeError "items") :=
  ⟨(C9_cursor_amended "a" "b" "c" "d" "e" "f").1,
   (C9_cursor_amended "a" "b" "c" "d" "e" "f").2.1 Nat (fun _ _ => .fail) [] 5 0 1
     (by decide) (by decide),
   (C9_cursor_amended "a" "b" "c" "d" "e" "f").2.2.1 Nat (fun _ _ => .fail) 0 1,
   ((C9_cursor_amended "a" "b" "c" "d" "e" "f").2.2.2 Nat (fun _ _ => .fail) 5 0 1
     (by decide) (by decide)).1⟩
